import Mathlib

/-!
Verification of the hyperparameter-tuning lecture notebook
(src/lecture-hyperparameter-tuning.ipynb).

The notebook loads the wine dataset, splits it, and runs three search
routines over declared hyperparameter spaces: GridSearchCV over
`param_grid`, RandomizedSearchCV over `param_dist`, and
bayes_opt.BayesianOptimization over a bounds dictionary, with the
objective function `xgb_evaluate`.

This file shallowly embeds:
* the three search-space descriptions, literally transcribed from the
  notebook (rationals stand for the Python floats);
* the documented selection semantics of the three library search
  routines (exhaustive product enumeration, per-parameter random
  sampling with a fixed iteration budget, and in-bounds point proposal),
  each abstracted over the scoring function and the randomness source;
* the notebook's own function `xgb_evaluate` and the parameter
  dictionary it builds, abstracted over the opaque ML primitives
  (classifier construction, fit, predict, accuracy);
* the notebook's cells viewed as a dataflow graph (names defined, names
  read, library calls made, objects mutated, external effects), and as a
  statement-level AST with an exception-propagation semantics.

All definitions are transcribed from the notebook source; where the
behaviour of a third-party routine matters (search-space containment,
determinism of `train_test_split`), the embedding follows the library's
documented contract and says so in the doc comment.
-/

set_option maxRecDepth 8000

/-- A hyperparameter value appearing in the notebook's search spaces:
either a number (Python int/float, embedded as a rational) or a string. -/
inductive PVal where
  | num (q : ℚ)
  | str (s : String)
deriving DecidableEq, Repr

/-- The grid-search space `param_grid` of the notebook, transcribed
literally: two candidate values for each of six hyperparameters and a
single fixed objective. -/
def param_grid : List (String × List PVal) :=
  [ ("learning_rate", [PVal.num ((1 : ℚ)/100), PVal.num ((1 : ℚ)/2)]),
    ("max_depth", [PVal.num 3, PVal.num 7]),
    ("min_child_weight", [PVal.num 3, PVal.num 5]),
    ("subsample", [PVal.num ((1 : ℚ)/2), PVal.num ((7 : ℚ)/10)]),
    ("colsample_bytree", [PVal.num ((1 : ℚ)/2), PVal.num ((7 : ℚ)/10)]),
    ("n_estimators", [PVal.num 100, PVal.num 200]),
    ("objective", [PVal.str ("multi:softmax")]) ]

/-- `np.linspace a b num`: `num` evenly spaced rationals from `a` to `b`
inclusive, as used to build `param_dist` in the notebook. -/
def linspace (a b : ℚ) (num : ℕ) : List ℚ :=
  (List.range num).map (fun k => a + (b - a) * k / ((num - 1 : ℕ) : ℚ))

/-- The random-search space `param_dist` of the notebook, transcribed
literally (the `np.linspace` grids are expanded by `linspace`). -/
def param_dist : List (String × List PVal) :=
  [ ("learning_rate", (linspace ((1 : ℚ)/100) 1 10).map PVal.num),
    ("max_depth", [PVal.num 3, PVal.num 4, PVal.num 5, PVal.num 6,
                   PVal.num 7, PVal.num 8, PVal.num 9, PVal.num 10]),
    ("min_child_weight", [PVal.num 1, PVal.num 2, PVal.num 3, PVal.num 4, PVal.num 5]),
    ("subsample", (linspace ((1 : ℚ)/2) 1 6).map PVal.num),
    ("colsample_bytree", (linspace ((1 : ℚ)/2) 1 6).map PVal.num),
    ("n_estimators", [PVal.num 100, PVal.num 200, PVal.num 300,
                      PVal.num 400, PVal.num 500]),
    ("objective", [PVal.str ("multi:softmax")]) ]

/-- The bounds dictionary passed to `BayesianOptimization` in the
notebook, in the alphabetical key order bayes_opt uses internally. -/
def pbounds : List (String × ℚ × ℚ) :=
  [ ("colsample_bytree", (3 : ℚ)/10, (9 : ℚ)/10),
    ("gamma", 0, 1),
    ("learning_rate", (1 : ℚ)/100, (3 : ℚ)/10),
    ("max_depth", 3, 10) ]

/-- All candidate assignments of a discrete parameter grid: the
Cartesian product of the per-parameter value lists, i.e. the candidate
set that `GridSearchCV` enumerates exhaustively. -/
def gridCandidates : List (String × List PVal) → List (List (String × PVal))
  | [] => [[]]
  | (n, vs) :: rest =>
      vs.flatMap (fun v => (gridCandidates rest).map (fun asn => (n, v) :: asn))

/-- `inGrid space asn` holds when `asn` assigns, to each hyperparameter
of `space` in order, a value drawn from that hyperparameter's declared
list — the "consistent with the declared search space" predicate. -/
def inGrid : List (String × List PVal) → List (String × PVal) → Bool
  | [], [] => true
  | (n, vs) :: g, (m, v) :: a => decide (n = m) && decide (v ∈ vs) && inGrid g a
  | _, _ => false

/-- First maximiser of `score` in a candidate list (ties keep the
earlier candidate, as `numpy.argmax` and hence scikit-learn's searches
do); `none` only on the empty list. -/
def argmaxBy {α : Type} (score : α → ℚ) : List α → Option α
  | [] => none
  | x :: xs =>
      match argmaxBy score xs with
      | none => some x
      | some y => if score x < score y then some y else some x

theorem argmaxBy_isSome {α : Type} (f : α → ℚ) (x : α) (xs : List α) :
    ∃ y, argmaxBy f (x :: xs) = some y := by
  simp only [argmaxBy]
  cases argmaxBy f xs with
  | none => exact ⟨x, rfl⟩
  | some z =>
      by_cases hc : f x < f z
      · exact ⟨z, if_pos hc⟩
      · exact ⟨x, if_neg hc⟩

theorem argmaxBy_ne_nil {α : Type} (f : α → ℚ) (l : List α) (h : l ≠ []) :
    ∃ y, argmaxBy f l = some y := by
  cases l with
  | nil => exact absurd rfl h
  | cons x xs => exact argmaxBy_isSome f x xs

theorem argmaxBy_mem {α : Type} (f : α → ℚ) :
    ∀ (l : List α) (y : α), argmaxBy f l = some y → y ∈ l := by
  intro l
  induction l with
  | nil => intro y h; simp [argmaxBy] at h
  | cons x xs ih =>
      intro y h
      simp only [argmaxBy] at h
      split at h
      · exact (Option.some.inj h) ▸ List.mem_cons_self x xs
      · rename_i z hz
        split at h
        · exact List.mem_cons_of_mem x ((Option.some.inj h) ▸ ih z hz)
        · exact (Option.some.inj h) ▸ List.mem_cons_self x xs

theorem argmaxBy_le {α : Type} (f : α → ℚ) :
    ∀ (l : List α) (y : α), argmaxBy f l = some y → ∀ x ∈ l, f x ≤ f y := by
  intro l
  induction l with
  | nil => intro y _ x hx; simp at hx
  | cons a xs ih =>
      intro y h x hx
      simp only [argmaxBy] at h
      rcases List.mem_cons.mp hx with rfl | hmem
      · split at h
        · exact (Option.some.inj h) ▸ le_refl _
        · rename_i z hz
          split at h
          · rename_i hc
            exact (Option.some.inj h) ▸ le_of_lt hc
          · exact (Option.some.inj h) ▸ le_refl _
      · split at h
        · rename_i hz
          cases xs with
          | nil => simp at hmem
          | cons b bs =>
              obtain ⟨w, hw⟩ := argmaxBy_isSome f b bs
              rw [hw] at hz
              exact Option.noConfusion hz
        · rename_i z hz
          have hxz : f x ≤ f z := ih z hz x hmem
          split at h
          · exact (Option.some.inj h) ▸ hxz
          · rename_i hc
            exact (Option.some.inj h) ▸ le_trans hxz (le_of_not_lt hc)

theorem gridCandidates_sound (g : List (String × List PVal)) :
    ∀ asn ∈ gridCandidates g, inGrid g asn = true := by
  induction g with
  | nil =>
      intro asn h
      simp only [gridCandidates, List.mem_singleton] at h
      subst h; rfl
  | cons p rest ih =>
      obtain ⟨n, vs⟩ := p
      intro asn h
      simp only [gridCandidates, List.mem_flatMap, List.mem_map] at h
      obtain ⟨v, hv, asn', ha', rfl⟩ := h
      simp only [inGrid, Bool.and_eq_true]
      refine ⟨⟨by simp, ?_⟩, ih asn' ha'⟩
      simpa using hv

theorem gridCandidates_complete :
    ∀ (g : List (String × List PVal)) (asn : List (String × PVal)),
      inGrid g asn = true → asn ∈ gridCandidates g := by
  intro g
  induction g with
  | nil =>
      intro asn h
      cases asn with
      | nil => simp [gridCandidates]
      | cons q a => simp [inGrid] at h
  | cons p rest ih =>
      obtain ⟨n, vs⟩ := p
      intro asn h
      cases asn with
      | nil => simp [inGrid] at h
      | cons q a =>
          obtain ⟨m, v⟩ := q
          simp only [inGrid, Bool.and_eq_true, decide_eq_true_eq] at h
          obtain ⟨⟨rfl, hv⟩, hrest⟩ := h
          simp only [gridCandidates, List.mem_flatMap, List.mem_map]
          exact ⟨v, hv, a, ih a hrest, rfl⟩

/-- `GridSearchCV(clf, param_grid, scoring, cv).fit`: exhaustively score
every candidate in the grid's Cartesian product and return the best one
(modelled from the documented semantics of scikit-learn's GridSearchCV,
abstracted over the scoring function). -/
def GridSearchCV_fit (grid : List (String × List PVal))
    (score : List (String × PVal) → ℚ) : Option (List (String × PVal)) :=
  argmaxBy score (gridCandidates grid)

theorem getD_mem_of_lt {α : Type} :
    ∀ (l : List α) (n : ℕ) (d : α), n < l.length → l.getD n d ∈ l := by
  intro l
  induction l with
  | nil => intro n d h; simp at h
  | cons x xs ih =>
      intro n d h
      cases n with
      | zero => simp [List.getD]
      | succ m =>
          have hm : m < xs.length := by simpa using h
          have := ih m d hm
          simpa [List.getD] using List.mem_cons_of_mem x (by simpa [List.getD] using this)

/-- One sampled candidate of `RandomizedSearchCV`: for the parameter at
position `i` of the distribution it picks the list element at index
`pick i` modulo the list length (modelled from the documented semantics
of scikit-learn's random search, which draws each parameter uniformly
from its candidate list; the randomness source is abstracted as `pick`). -/
def sampleParams (pick : ℕ → ℕ) :
    List (String × List PVal) → ℕ → List (String × PVal)
  | [], _ => []
  | (n, vs) :: rest, i =>
      (n, vs.getD (pick i % vs.length) (PVal.num 0)) :: sampleParams pick rest (i + 1)

theorem sampleParams_inGrid (pick : ℕ → ℕ) :
    ∀ (dist : List (String × List PVal)) (i : ℕ),
      (∀ p ∈ dist, p.2 ≠ []) → inGrid dist (sampleParams pick dist i) = true := by
  intro dist
  induction dist with
  | nil => intro i _; rfl
  | cons p rest ih =>
      obtain ⟨n, vs⟩ := p
      intro i h
      have hvs : vs ≠ [] := h (n, vs) (List.mem_cons_self _ _)
      have hlen : 0 < vs.length := List.length_pos.mpr hvs
      have hmem : vs.getD (pick i % vs.length) (PVal.num 0) ∈ vs :=
        getD_mem_of_lt vs _ _ (Nat.mod_lt _ hlen)
      simp only [sampleParams, inGrid, Bool.and_eq_true]
      refine ⟨⟨by simp, by simpa using hmem⟩, ?_⟩
      exact ih (i + 1) (fun q hq => h q (List.mem_cons_of_mem _ hq))

/-- `RandomizedSearchCV(clf, param_distributions, scoring, cv, n_iter).fit`:
score `n_iter` sampled candidates and return the best one (modelled from
the documented semantics of scikit-learn's randomized search, abstracted
over the scoring function and the randomness source `pick`). -/
def RandomizedSearchCV_fit (dist : List (String × List PVal)) (n_iter : ℕ)
    (pick : ℕ → ℕ → ℕ) (score : List (String × PVal) → ℚ) :
    Option (List (String × PVal)) :=
  argmaxBy score ((List.range n_iter).map (fun k => sampleParams (pick k) dist 0))

/-- Clip a rational to the unit interval, used to model a bounded
randomness source. -/
def clamp01 (r : ℚ) : ℚ := max 0 (min 1 r)

theorem clamp01_nonneg (r : ℚ) : 0 ≤ clamp01 r := le_max_left 0 _

theorem clamp01_le_one (r : ℚ) : clamp01 r ≤ 1 :=
  max_le (by norm_num) (min_le_left 1 r)

/-- One point probed by `BayesianOptimization`: each coordinate is
`lo + (hi - lo) * u` for a unit-interval draw `u` (modelled from
bayes_opt, whose initial points are sampled uniformly inside the bounds
and whose acquisition maximiser is clipped to the bounds; the randomness
and acquisition machinery are abstracted as `u`). -/
def samplePoint (u : ℕ → ℚ) : List (String × ℚ × ℚ) → ℕ → List (String × ℚ)
  | [], _ => []
  | (n, lo, hi) :: rest, i =>
      (n, lo + (hi - lo) * clamp01 (u i)) :: samplePoint u rest (i + 1)

/-- `inBounds bounds pt` holds when `pt` assigns, to each key of the
bounds dictionary in order, a value inside that key's closed interval. -/
def inBounds : List (String × ℚ × ℚ) → List (String × ℚ) → Bool
  | [], [] => true
  | (n, lo, hi) :: b, (m, v) :: p =>
      decide (n = m) && decide (lo ≤ v) && decide (v ≤ hi) && inBounds b p
  | _, _ => false

theorem samplePoint_inBounds (u : ℕ → ℚ) :
    ∀ (bounds : List (String × ℚ × ℚ)) (i : ℕ),
      (∀ p ∈ bounds, p.2.1 ≤ p.2.2) → inBounds bounds (samplePoint u bounds i) = true := by
  intro bounds
  induction bounds with
  | nil => intro i _; rfl
  | cons p rest ih =>
      obtain ⟨n, lo, hi⟩ := p
      intro i h
      have hlh : lo ≤ hi := h (n, lo, hi) (List.mem_cons_self _ _)
      have h0 : (0 : ℚ) ≤ clamp01 (u i) := clamp01_nonneg (u i)
      have h1 : clamp01 (u i) ≤ 1 := clamp01_le_one (u i)
      have hlow : lo ≤ lo + (hi - lo) * clamp01 (u i) := by nlinarith
      have hhigh : lo + (hi - lo) * clamp01 (u i) ≤ hi := by nlinarith
      simp only [samplePoint, inBounds, Bool.and_eq_true]
      refine ⟨⟨⟨by simp, by simpa using hlow⟩, by simpa using hhigh⟩, ?_⟩
      exact ih (i + 1) (fun q hq => h q (List.mem_cons_of_mem _ hq))

/-- `BayesianOptimization(f, pbounds).maximize(init_points, n_iter)`:
probe `init_points + n_iter` in-bounds points and return the best one
(`max['params']`), modelled from bayes_opt's documented behaviour and
abstracted over the objective `f` and the randomness source `u`. -/
def BO_maximize (bounds : List (String × ℚ × ℚ)) (init_points n_iter : ℕ)
    (u : ℕ → ℕ → ℚ) (f : List (String × ℚ) → ℚ) : Option (List (String × ℚ)) :=
  argmaxBy f ((List.range (init_points + n_iter)).map (fun k => samplePoint (u k) bounds 0))

/-- Python `int()` on a rational: truncation toward zero (floor for
nonnegative arguments, ceiling for negative ones). -/
def pyInt (q : ℚ) : ℤ := if 0 ≤ q then Int.floor q else Int.ceil q

/-- The parameter dictionary built inside the notebook's `xgb_evaluate`,
field for field: `max_depth` truncated by `int()`, the three continuous
hyperparameters passed through, and the four fixed entries. -/
structure XgbParams where
  max_depth : ℤ
  gamma : ℚ
  colsample_bytree : ℚ
  learning_rate : ℚ
  objective : String
  num_class : ℕ
  eval_metric : String
  silent : ℕ
deriving DecidableEq

/-- The `params` dictionary of `xgb_evaluate`, as in the notebook source. -/
def xgbEvalParams (max_depth gamma colsample_bytree learning_rate : ℚ) : XgbParams :=
  { max_depth := pyInt max_depth
    gamma := gamma
    colsample_bytree := colsample_bytree
    learning_rate := learning_rate
    objective := "multi:softprob"
    num_class := 3
    eval_metric := "mlogloss"
    silent := 1 }

/-- The notebook's objective function for Bayesian optimisation,
transcribed line by line and abstracted over the opaque ML primitives:
build the params dict, construct the classifier, fit it on the training
split, predict on the test split, and return the accuracy of those
predictions against the test labels. -/
def xgb_evaluate {Data Labels Model Pred : Type}
    (XGBClassifier : XgbParams → Model)
    (fitModel : Model → Data → Labels → Model)
    (predictModel : Model → Data → Pred)
    (accuracy_score : Labels → Pred → ℚ)
    (X_train : Data) (y_train : Labels) (X_test : Data) (y_test : Labels)
    (max_depth gamma colsample_bytree learning_rate : ℚ) : ℚ :=
  let params := xgbEvalParams max_depth gamma colsample_bytree learning_rate
  let model := XGBClassifier params
  let fitted := fitModel model X_train y_train
  let predictions := predictModel fitted X_test
  let accuracy := accuracy_score y_test predictions
  accuracy

theorem xgb_evaluate_unfold {Data Labels Model Pred : Type}
    (XGB : XgbParams → Model) (fitF : Model → Data → Labels → Model)
    (predictF : Model → Data → Pred) (accF : Labels → Pred → ℚ)
    (Xtr : Data) (ytr : Labels) (Xte : Data) (yte : Labels)
    (md g cs lr : ℚ) :
    xgb_evaluate XGB fitF predictF accF Xtr ytr Xte yte md g cs lr =
      accF yte (predictF (fitF (XGB (xgbEvalParams md g cs lr)) Xtr ytr) Xte) := rfl

/-- The raw content of the library-bundled wine dataset: feature rows,
integer targets, and feature names. Abstract in the embedding (the data
ships with scikit-learn, not with this repository). -/
structure WineRaw where
  data : List (List ℚ)
  target : List ℕ
  feature_names : List String

/-- A pandas DataFrame at content level: rows plus column names. -/
structure PandasDF where
  rows : List (List ℚ)
  cols : List String
deriving DecidableEq

/-- `pd.DataFrame(data, columns)`. -/
def pd_DataFrame (data : List (List ℚ)) (columns : List String) : PandasDF :=
  { rows := data, cols := columns }

/-- `load_wine(...)`: deterministic loader of the bundled dataset; the
`as_frame` flag only changes the container type of `.data` (ndarray vs
DataFrame), never the content (modelled from scikit-learn's documented
behaviour). -/
def load_wine (raw : WineRaw) (as_frame : Bool) : WineRaw := raw

/-- With `as_frame=True`, `wine.data` is a DataFrame whose columns are
the feature names. -/
def wine_data_frame (raw : WineRaw) : PandasDF :=
  pd_DataFrame raw.data raw.feature_names

/-- The full argument tuple of a `train_test_split` call site. -/
structure TTSArgs where
  features : PandasDF
  labels : List ℕ
  test_size : ℚ
  random_state : ℕ
deriving DecidableEq

/-- Arguments of the first `train_test_split` call (grid/random-search
section): `wine = load_wine()`, `X = pd.DataFrame(wine.data,
columns=wine.feature_names)`, `y = wine.target`, `test_size=0.2`,
`random_state=42`. -/
def section1_split_args (raw : WineRaw) : TTSArgs :=
  let wine := load_wine raw false
  { features := pd_DataFrame wine.data wine.feature_names
    labels := wine.target
    test_size := (1 : ℚ)/5
    random_state := 42 }

/-- Arguments of the second `train_test_split` call (Bayesian-
optimisation section): `wine = load_wine(as_frame=True)`, `X =
wine.data`, `y = wine.target`, `test_size=0.2`, `random_state=42`. -/
def section2_split_args (raw : WineRaw) : TTSArgs :=
  let wine := load_wine raw true
  { features := wine_data_frame wine
    labels := wine.target
    test_size := (1 : ℚ)/5
    random_state := 42 }

/-- The parameter mapping printed at the end of the Bayesian-
optimisation section (`xgb_bo.max['params']`), with bayes_opt's
alphabetical key order. -/
structure BOResultParams where
  colsample_bytree : ℚ
  gamma : ℚ
  learning_rate : ℚ
  max_depth : ℚ
deriving DecidableEq

/-- `params['max_depth'] = int(params['max_depth'])`: the notebook's
final in-place truncation of the reported `max_depth`. -/
def truncate_max_depth (p : BOResultParams) : BOResultParams :=
  { p with max_depth := ((pyInt p.max_depth : ℤ) : ℚ) }

/-- Externally visible effect of a notebook cell. -/
inductive CellEffect where
  | printOut
  | pipInstall
  | globalMutation
deriving DecidableEq

/-- A notebook code cell viewed as a dataflow node: the interpreter-
global names it binds, the names bound by other cells that it reads, how
many third-party library calls it makes, which already-created objects
it mutates in place, and its externally visible effects. -/
structure NotebookCell where
  defines : List String
  reads : List String
  libCalls : ℕ
  mutates : List String
  effects : List CellEffect
deriving DecidableEq

/-- Cell 1: imports, `wine = load_wine()`, `X = pd.DataFrame(...)`,
`y = wine.target`, `train_test_split`. -/
def cellSetup : NotebookCell :=
  { defines := ["np", "pd", "load_wine", "train_test_split", "xgb",
                "wine", "X", "y", "X_train", "X_test", "y_train", "y_test"]
    reads := []
    libCalls := 3
    mutates := []
    effects := [] }

/-- Cell 2: `param_grid`, `clf = xgb.XGBClassifier()`,
`grid_search = GridSearchCV(...)`, `grid_search.fit(X_train, y_train)`,
two prints. `fit` mutates `grid_search` in place. -/
def cellGrid : NotebookCell :=
  { defines := ["GridSearchCV", "param_grid", "clf", "grid_search"]
    reads := ["xgb", "X_train", "y_train"]
    libCalls := 3
    mutates := ["grid_search"]
    effects := [CellEffect.printOut, CellEffect.printOut] }

/-- Cell 3: `best_model = grid_search.best_estimator_` and
`new_model = xgb.XGBClassifier(**grid_search.best_params_)`. -/
def cellBestModel : NotebookCell :=
  { defines := ["best_model", "new_model"]
    reads := ["grid_search", "xgb"]
    libCalls := 1
    mutates := []
    effects := [] }

/-- Cell 4: `param_dist` (three `np.linspace` calls),
`rand_search = RandomizedSearchCV(clf, ...)`, `rand_search.fit(X_train,
y_train)`, two prints. `fit` mutates `rand_search` in place. -/
def cellRandom : NotebookCell :=
  { defines := ["RandomizedSearchCV", "param_dist", "rand_search"]
    reads := ["np", "clf", "X_train", "y_train"]
    libCalls := 5
    mutates := ["rand_search"]
    effects := [CellEffect.printOut, CellEffect.printOut] }

/-- Cell 5: the bare expression `rand_search.best_score_`. -/
def cellBestScore : NotebookCell :=
  { defines := []
    reads := ["rand_search"]
    libCalls := 0
    mutates := []
    effects := [] }

/-- Cell 6: the shell escape `!pip install bayesian-optimization`,
which modifies the installed package environment. -/
def cellPip : NotebookCell :=
  { defines := []
    reads := []
    libCalls := 0
    mutates := []
    effects := [CellEffect.pipInstall] }

/-- Cell 7: `import warnings; warnings.filterwarnings('ignore')`, which
mutates the interpreter-global warning filter state. -/
def cellWarnings : NotebookCell :=
  { defines := ["warnings"]
    reads := []
    libCalls := 1
    mutates := []
    effects := [CellEffect.globalMutation] }

/-- Cell 8 (Bayesian optimisation): re-imports, reloads `wine`,
rebuilds `X`, `y` and the train/test split, defines `xgb_evaluate`,
constructs `xgb_bo`, runs `maximize` (mutating `xgb_bo`), extracts
`params` and truncates `params['max_depth']` in place, prints. Reads no
name bound by an earlier cell. -/
def cellBayes : NotebookCell :=
  { defines := ["np", "pd", "load_wine", "train_test_split",
                "XGBClassifier", "BayesianOptimization", "accuracy_score",
                "wine", "X", "y", "X_train", "X_test", "y_train", "y_test",
                "xgb_evaluate", "xgb_bo", "params"]
    reads := []
    libCalls := 8
    mutates := ["xgb_bo", "params"]
    effects := [CellEffect.printOut] }

/-- The notebook's code cells, in execution order. -/
def notebookCells : List NotebookCell :=
  [cellSetup, cellGrid, cellBestModel, cellRandom,
   cellBestScore, cellPip, cellWarnings, cellBayes]

/-- A name is available to cell `i` when some cell before `i` binds it. -/
def definedBefore (cells : List NotebookCell) (i : ℕ) (name : String) : Bool :=
  (cells.take i).any (fun c => decide (name ∈ c.defines))

/-- Dataflow between cells runs strictly forward: every name a cell
reads is bound by some earlier cell. -/
def forwardDataflow (cells : List NotebookCell) : Bool :=
  (List.range cells.length).all (fun i =>
    match cells[i]? with
    | some c => c.reads.all (definedBefore cells i)
    | none => true)

/-- The entities of the spec's data model, by interpreter-global name:
the dataset and its split, the parameter-space descriptions, and the
fitted estimators/results. -/
def entityNames : List String :=
  ["wine", "X", "y", "X_train", "X_test", "y_train", "y_test",
   "param_grid", "param_dist", "clf", "grid_search", "best_model",
   "new_model", "rand_search", "xgb_bo", "params"]

/-- Entities that the Bayesian-optimisation cell loads or builds a
second time. -/
def reloadedNames : List String :=
  ["wine", "X", "y", "X_train", "X_test", "y_train", "y_test"]

/-- All in-place mutations of already-created objects, in notebook
order. -/
def allMutations : List String :=
  notebookCells.flatMap (fun c => c.mutates)

/-- What role a library call plays in the notebook. -/
inductive CallKind where
  | searchRoutine
  | modelFit
  | predictOp
  | metric
  | dataPrep
  | display
  | envInstall
  | globalConfig
deriving DecidableEq

/-- A call site: the library it targets, the function called, and its
role. -/
structure LibCall where
  lib : String
  fn : String
  kind : CallKind
deriving DecidableEq

/-- Python statements at the granularity this notebook needs. `call`
statements may raise; `funcDef` binds a function without running its
body; `tryExcept` is the (unused) exception-handler form; `forLoop` is
the (unused) loop form. -/
inductive Stmt where
  | skip
  | importMod (m : String)
  | assign (n : String)
  | call (c : LibCall)
  | itemAssign (obj : String)
  | funcDef (n : String) (body : Stmt)
  | forLoop (v : String) (iters : ℕ) (body : Stmt)
  | tryExcept (body handler : Stmt)
  | seq (a b : Stmt)

/-- Right-nested sequencing of a statement list. -/
def seqList : List Stmt → Stmt
  | [] => Stmt.skip
  | s :: rest => Stmt.seq s (seqList rest)

/-- Does a statement contain an exception handler anywhere (including
inside function bodies)? -/
def hasHandler : Stmt → Bool
  | Stmt.skip => false
  | Stmt.importMod _ => false
  | Stmt.assign _ => false
  | Stmt.call _ => false
  | Stmt.itemAssign _ => false
  | Stmt.funcDef _ b => hasHandler b
  | Stmt.forLoop _ _ b => hasHandler b
  | Stmt.tryExcept _ _ => true
  | Stmt.seq a b => hasHandler a || hasHandler b

/-- Does a statement contain a loop anywhere (including inside function
bodies)? -/
def hasLoop : Stmt → Bool
  | Stmt.skip => false
  | Stmt.importMod _ => false
  | Stmt.assign _ => false
  | Stmt.call _ => false
  | Stmt.itemAssign _ => false
  | Stmt.funcDef _ b => hasLoop b
  | Stmt.forLoop _ _ _ => true
  | Stmt.tryExcept a b => hasLoop a || hasLoop b
  | Stmt.seq a b => hasLoop a || hasLoop b

/-- All call sites in a statement, including those inside function
bodies (the static view). -/
def staticCalls : Stmt → List LibCall
  | Stmt.skip => []
  | Stmt.importMod _ => []
  | Stmt.assign _ => []
  | Stmt.call c => [c]
  | Stmt.itemAssign _ => []
  | Stmt.funcDef _ b => staticCalls b
  | Stmt.forLoop _ _ b => staticCalls b
  | Stmt.tryExcept a b => staticCalls a ++ staticCalls b
  | Stmt.seq a b => staticCalls a ++ staticCalls b

/-- Calls executed when the statement itself runs: a `funcDef` only
binds its body, so its calls are excluded; a loop body's calls appear
once (the body is deterministic, so its first pass already decides
whether an error occurs). -/
def execCalls : Stmt → List LibCall
  | Stmt.skip => []
  | Stmt.importMod _ => []
  | Stmt.assign _ => []
  | Stmt.call c => [c]
  | Stmt.itemAssign _ => []
  | Stmt.funcDef _ _ => []
  | Stmt.forLoop _ n b => if n = 0 then [] else execCalls b
  | Stmt.tryExcept b _ => execCalls b
  | Stmt.seq a b => execCalls a ++ execCalls b

/-- Names of functions the notebook defines itself. -/
def localDefs : Stmt → List String
  | Stmt.skip => []
  | Stmt.importMod _ => []
  | Stmt.assign _ => []
  | Stmt.call _ => []
  | Stmt.itemAssign _ => []
  | Stmt.funcDef n b => n :: localDefs b
  | Stmt.forLoop _ _ b => localDefs b
  | Stmt.tryExcept a b => localDefs a ++ localDefs b
  | Stmt.seq a b => localDefs a ++ localDefs b

/-- Execute a statement under an error oracle `raises` that says which
library calls fail and with what error. Returns the first uncaught
error, or `none`. A `tryExcept` swallows errors of its body and runs the
handler; a `funcDef` runs nothing; a loop with a deterministic body
fails iff one pass of the body fails. -/
def runStmt (raises : LibCall → Option String) : Stmt → Option String
  | Stmt.skip => none
  | Stmt.importMod _ => none
  | Stmt.assign _ => none
  | Stmt.call c => raises c
  | Stmt.itemAssign _ => none
  | Stmt.funcDef _ _ => none
  | Stmt.forLoop _ n b => if n = 0 then none else runStmt raises b
  | Stmt.tryExcept b h =>
      match runStmt raises b with
      | some _ => runStmt raises h
      | none => none
  | Stmt.seq a b =>
      match runStmt raises a with
      | some e => some e
      | none => runStmt raises b

/-- The first error among a list of calls, unchanged. -/
def firstErr (raises : LibCall → Option String) : List LibCall → Option String
  | [] => none
  | c :: rest =>
      match raises c with
      | some e => some e
      | none => firstErr raises rest

theorem firstErr_append (raises : LibCall → Option String) :
    ∀ l1 l2 : List LibCall,
      firstErr raises (l1 ++ l2) =
        (match firstErr raises l1 with
         | some e => some e
         | none => firstErr raises l2) := by
  intro l1 l2
  induction l1 with
  | nil => rfl
  | cons c rest ih =>
      simp only [List.cons_append, firstErr]
      cases raises c with
      | some e => rfl
      | none => exact ih

/-- In a handler-free, loop-free program, execution surfaces exactly the
first library error, untransformed. -/
theorem runStmt_eq_firstErr (raises : LibCall → Option String) :
    ∀ s : Stmt, hasHandler s = false → hasLoop s = false →
      runStmt raises s = firstErr raises (execCalls s) := by
  intro s
  induction s with
  | skip => intro _ _; rfl
  | importMod m => intro _ _; rfl
  | assign n => intro _ _; rfl
  | call c =>
      intro _ _
      simp only [runStmt, execCalls, firstErr]
      cases raises c <;> rfl
  | itemAssign o => intro _ _; rfl
  | funcDef n b ihb => intro _ _; rfl
  | forLoop v k b ihb =>
      intro _ hl
      simp [hasLoop] at hl
  | tryExcept b h ihb ihh =>
      intro hh _
      simp [hasHandler] at hh
  | seq a b iha ihb =>
      intro hh hl
      simp only [hasHandler, Bool.or_eq_false_iff] at hh
      simp only [hasLoop, Bool.or_eq_false_iff] at hl
      simp only [runStmt, execCalls, firstErr_append raises]
      rw [iha hh.1 hl.1, ihb hh.2 hl.2]

/-- Libraries from which the notebook takes every search strategy,
model, and metric. -/
def thirdPartyMLLibs : List String := ["sklearn", "xgboost", "bayes_opt"]

/-- Is a call one of the core ML roles (search, fitting, prediction,
metric) as opposed to data preparation, display, or environment setup? -/
def isCoreMLKind (k : CallKind) : Bool :=
  match k with
  | CallKind.searchRoutine => true
  | CallKind.modelFit => true
  | CallKind.predictOp => true
  | CallKind.metric => true
  | _ => false

/-- Statements of notebook cell 1 (imports, data load, split). -/
def stmtSetup : Stmt := seqList
  [ Stmt.importMod ("numpy"), Stmt.importMod ("pandas"),
    Stmt.importMod ("sklearn.datasets"), Stmt.importMod ("sklearn.model_selection"),
    Stmt.importMod ("xgboost"),
    Stmt.seq (Stmt.call ⟨"sklearn", "load_wine", CallKind.dataPrep⟩) (Stmt.assign ("wine")),
    Stmt.seq (Stmt.call ⟨"pandas", "DataFrame", CallKind.dataPrep⟩) (Stmt.assign ("X")),
    Stmt.assign ("y"),
    Stmt.seq (Stmt.call ⟨"sklearn", "train_test_split", CallKind.dataPrep⟩)
      (seqList [Stmt.assign ("X_train"), Stmt.assign ("X_test"),
                Stmt.assign ("y_train"), Stmt.assign ("y_test")]) ]

/-- Statements of notebook cell 2 (grid search). -/
def stmtGrid : Stmt := seqList
  [ Stmt.importMod ("sklearn.model_selection"),
    Stmt.assign ("param_grid"),
    Stmt.seq (Stmt.call ⟨"xgboost", "XGBClassifier", CallKind.modelFit⟩)
      (Stmt.assign ("clf")),
    Stmt.seq (Stmt.call ⟨"sklearn", "GridSearchCV", CallKind.searchRoutine⟩)
      (Stmt.assign ("grid_search")),
    Stmt.call ⟨"sklearn", "GridSearchCV.fit", CallKind.searchRoutine⟩,
    Stmt.call ⟨"builtins", "print", CallKind.display⟩,
    Stmt.call ⟨"builtins", "print", CallKind.display⟩ ]

/-- Statements of notebook cell 3 (extract/rebuild the best model). -/
def stmtBestModel : Stmt := seqList
  [ Stmt.assign ("best_model"),
    Stmt.seq (Stmt.call ⟨"xgboost", "XGBClassifier", CallKind.modelFit⟩)
      (Stmt.assign ("new_model")) ]

/-- Statements of notebook cell 4 (random search). -/
def stmtRandom : Stmt := seqList
  [ Stmt.importMod ("sklearn.model_selection"),
    seqList [Stmt.call ⟨"numpy", "linspace", CallKind.dataPrep⟩,
             Stmt.call ⟨"numpy", "linspace", CallKind.dataPrep⟩,
             Stmt.call ⟨"numpy", "linspace", CallKind.dataPrep⟩,
             Stmt.assign ("param_dist")],
    Stmt.seq (Stmt.call ⟨"sklearn", "RandomizedSearchCV", CallKind.searchRoutine⟩)
      (Stmt.assign ("rand_search")),
    Stmt.call ⟨"sklearn", "RandomizedSearchCV.fit", CallKind.searchRoutine⟩,
    Stmt.call ⟨"builtins", "print", CallKind.display⟩,
    Stmt.call ⟨"builtins", "print", CallKind.display⟩ ]

/-- Statements of notebook cell 5 (the bare expression
`rand_search.best_score_`, displayed by the notebook). -/
def stmtBestScore : Stmt := Stmt.skip

/-- Statements of notebook cell 6 (`!pip install bayesian-optimization`). -/
def stmtPip : Stmt := Stmt.call ⟨"pip", "install", CallKind.envInstall⟩

/-- Statements of notebook cell 7 (warning suppression). -/
def stmtWarnings : Stmt := seqList
  [ Stmt.importMod ("warnings"),
    Stmt.call ⟨"warnings", "filterwarnings", CallKind.globalConfig⟩ ]

/-- The body of the notebook-defined function `xgb_evaluate`: build the
params dict, construct and fit an XGBClassifier, predict on the test
split, score with accuracy_score. Straight-line code, no loop, no
handler; every call targets a third-party library. -/
def xgbEvaluateBody : Stmt := seqList
  [ Stmt.assign ("params"),
    Stmt.seq (Stmt.call ⟨"xgboost", "XGBClassifier", CallKind.modelFit⟩)
      (Stmt.assign ("model")),
    Stmt.call ⟨"xgboost", "XGBClassifier.fit", CallKind.modelFit⟩,
    Stmt.seq (Stmt.call ⟨"xgboost", "XGBClassifier.predict", CallKind.predictOp⟩)
      (Stmt.assign ("predictions")),
    Stmt.seq (Stmt.call ⟨"sklearn", "accuracy_score", CallKind.metric⟩)
      (Stmt.assign ("accuracy")) ]

/-- Statements of notebook cell 8 (Bayesian optimisation). -/
def stmtBayes : Stmt := seqList
  [ Stmt.importMod ("numpy"), Stmt.importMod ("pandas"),
    Stmt.importMod ("sklearn.datasets"), Stmt.importMod ("sklearn.model_selection"),
    Stmt.importMod ("xgboost"), Stmt.importMod ("bayes_opt"),
    Stmt.importMod ("sklearn.metrics"),
    Stmt.seq (Stmt.call ⟨"sklearn", "load_wine", CallKind.dataPrep⟩) (Stmt.assign ("wine")),
    Stmt.assign ("X"), Stmt.assign ("y"),
    Stmt.seq (Stmt.call ⟨"sklearn", "train_test_split", CallKind.dataPrep⟩)
      (seqList [Stmt.assign ("X_train"), Stmt.assign ("X_test"),
                Stmt.assign ("y_train"), Stmt.assign ("y_test")]),
    Stmt.funcDef ("xgb_evaluate") xgbEvaluateBody,
    Stmt.seq (Stmt.call ⟨"bayes_opt", "BayesianOptimization", CallKind.searchRoutine⟩)
      (Stmt.assign ("xgb_bo")),
    Stmt.call ⟨"bayes_opt", "BayesianOptimization.maximize", CallKind.searchRoutine⟩,
    Stmt.assign ("params"),
    Stmt.itemAssign ("params"),
    Stmt.call ⟨"builtins", "print", CallKind.display⟩ ]

/-- The whole notebook, cells in execution order. -/
def notebookProgram : Stmt := seqList
  [stmtSetup, stmtGrid, stmtBestModel, stmtRandom,
   stmtBestScore, stmtPip, stmtWarnings, stmtBayes]

/-- The (candidate, fold) fit jobs that a `cv`-fold grid search runs:
one fit per candidate per fold. -/
def cvFitJobs (grid : List (String × List PVal)) (cv : ℕ) :
    List ((List (String × PVal)) × ℕ) :=
  (gridCandidates grid).flatMap (fun c => (List.range cv).map (fun f => (c, f)))

/-- Mean cross-validated score of a candidate over `cv` folds, given the
per-fold scores. -/
def meanCvScore (cv : ℕ) (foldScore : List (String × PVal) → ℕ → ℚ)
    (c : List (String × PVal)) : ℚ :=
  (((List.range cv).map (foldScore c)).sum) / (cv : ℚ)

/-- The grid candidate taking every parameter's first declared value. -/
def gridFirstCandidate : List (String × PVal) :=
  [ ("learning_rate", PVal.num ((1 : ℚ)/100)), ("max_depth", PVal.num 3),
    ("min_child_weight", PVal.num 3), ("subsample", PVal.num ((1 : ℚ)/2)),
    ("colsample_bytree", PVal.num ((1 : ℚ)/2)), ("n_estimators", PVal.num 100),
    ("objective", PVal.str ("multi:softmax")) ]

/-- Each bound of the notebook's `pbounds` dictionary is well formed:
its lower end does not exceed its upper end. -/
theorem pbounds_wf : ∀ p ∈ pbounds, p.2.1 ≤ p.2.2 := by
  intro p hp
  fin_cases hp <;> norm_num

/-- C1: every search routine the notebook invokes succeeds — returns a
best-parameters mapping — and that mapping assigns to every
hyperparameter a value from its declared enumerated set (grid and random
search) or numeric range (Bayesian optimisation), for any scoring
function and any randomness source. -/
theorem claim_C1 :
    (∀ score : List (String × PVal) → ℚ,
      ∃ best, GridSearchCV_fit param_grid score = some best ∧
        inGrid param_grid best = true) ∧
    (∀ (pick : ℕ → ℕ → ℕ) (score : List (String × PVal) → ℚ),
      ∃ best, RandomizedSearchCV_fit param_dist 50 pick score = some best ∧
        inGrid param_dist best = true) ∧
    (∀ (u : ℕ → ℕ → ℚ) (f : List (String × ℚ) → ℚ),
      ∃ best, BO_maximize pbounds 5 10 u f = some best ∧
        inBounds pbounds best = true) := by
  refine ⟨?_, ?_, ?_⟩
  · intro score
    obtain ⟨best, hb⟩ :=
      argmaxBy_ne_nil score (gridCandidates param_grid) (by decide)
    exact ⟨best, hb,
      gridCandidates_sound param_grid best (argmaxBy_mem score _ best hb)⟩
  · intro pick score
    have hne : ((List.range 50).map (fun k => sampleParams (pick k) param_dist 0)) ≠ [] := by
      simp
    obtain ⟨best, hb⟩ := argmaxBy_ne_nil score _ hne
    refine ⟨best, hb, ?_⟩
    have hmem := argmaxBy_mem score _ best hb
    simp only [List.mem_map, List.mem_range] at hmem
    obtain ⟨k, _, rfl⟩ := hmem
    exact sampleParams_inGrid (pick k) param_dist 0 (by decide)
  · intro u f
    have hne : ((List.range (5 + 10)).map (fun k => samplePoint (u k) pbounds 0)) ≠ [] := by
      simp
    obtain ⟨best, hb⟩ := argmaxBy_ne_nil f _ hne
    refine ⟨best, hb, ?_⟩
    have hmem := argmaxBy_mem f _ best hb
    simp only [List.mem_map, List.mem_range] at hmem
    obtain ⟨k, _, rfl⟩ := hmem
    exact samplePoint_inBounds (u k) pbounds 0 pbounds_wf

/-- Witness for C1: the grid search with the constant-zero scorer
returns an in-space best candidate. -/
theorem claim_C1_witness :
    ∃ best, GridSearchCV_fit param_grid (fun _ => 0) = some best ∧
      inGrid param_grid best = true :=
  claim_C1.1 (fun _ => 0)

/-- C2: refuted. The notebook's cells are not independent and do not
make exactly one library call each: the grid-search cell makes three
library calls, binds `clf`, and the random-search cell reads `clf` (and
`X_train`, `y_train`) from earlier cells. -/
theorem claim_C2_counterexample :
    (notebookCells.all (fun c => c.reads.isEmpty && (c.libCalls == 1))) = false ∧
    "clf" ∈ cellGrid.defines ∧ "clf" ∈ cellRandom.reads ∧
    cellGrid.libCalls = 3 := by decide

/-- C2 (amended): cells are not independent — later cells read names
bound by earlier cells and cells make zero or several library calls —
but the dataflow between cells runs strictly forward: every name a cell
reads is bound by some earlier cell. -/
theorem claim_C2_amended :
    forwardDataflow notebookCells = true ∧
    (notebookCells.all (fun c => c.reads.isEmpty)) = false := by decide

/-- C3: refuted. The wine dataset (and `X`, `y` and the split) is loaded
a second time by the Bayesian-optimisation cell, and `params` is mutated
after creation by the `max_depth` truncation. -/
theorem claim_C3_counterexample :
    ((entityNames.all (fun n =>
        decide (notebookCells.countP (fun c => decide (n ∈ c.defines)) ≤ 1)))
      && (notebookCells.all (fun c => c.mutates.isEmpty))) = false ∧
    notebookCells.countP (fun c => decide ("wine" ∈ c.defines)) = 2 ∧
    "params" ∈ cellBayes.mutates := by decide

/-- C3 (amended): the dataset entities (`wine`, `X`, `y` and the four
split parts) are constructed exactly twice — once per section — and
every other data-model entity exactly once; the only mutations after
creation are each search object by its own fit/maximize call and
`params` by the final `max_depth` truncation. -/
theorem claim_C3_amended :
    (entityNames.all (fun n =>
      notebookCells.countP (fun c => decide (n ∈ c.defines))
        == (if n ∈ reloadedNames then 2 else 1))) = true ∧
    allMutations = ["grid_search", "rand_search", "xgb_bo", "params"] := by decide

/-- C4: refuted. Not every externally visible effect is a print: the
`!pip install bayesian-optimization` cell modifies the installed package
environment, and `warnings.filterwarnings('ignore')` mutates
interpreter-global warning state. -/
theorem claim_C4_counterexample :
    (notebookCells.all (fun c =>
        c.effects.all (fun e => e == CellEffect.printOut))) = false ∧
    CellEffect.pipInstall ∈ cellPip.effects ∧
    CellEffect.globalMutation ∈ cellWarnings.effects := by decide

/-- C4 (amended): besides printing, the notebook's only externally
visible effects are exactly the pip install of bayesian-optimization and
the global warning-filter mutation. -/
theorem claim_C4_amended :
    notebookCells.flatMap (fun c =>
        c.effects.filter (fun e => !(e == CellEffect.printOut)))
      = [CellEffect.pipInstall, CellEffect.globalMutation] := by decide

/-- C5: no cell of the notebook contains an exception handler, and
consequently, for every error oracle, executing the notebook surfaces
exactly the first library error, unchanged — nothing catches,
transforms, or recovers. -/
theorem claim_C5 :
    hasHandler notebookProgram = false ∧
    ∀ raises : LibCall → Option String,
      runStmt raises notebookProgram = firstErr raises (execCalls notebookProgram) :=
  ⟨by decide, fun raises =>
    runStmt_eq_firstErr raises notebookProgram (by decide) (by decide)⟩

/-- Witness for C5: under the oracle that raises nowhere, the notebook
runs to completion with no error. -/
theorem claim_C5_witness :
    runStmt (fun _ => none) notebookProgram =
      firstErr (fun _ => none) (execCalls notebookProgram) :=
  claim_C5.2 (fun _ => none)

/-- C6: every call in a core ML role (search routine, model
construction/fitting, prediction, metric) targets scikit-learn, xgboost
or bayes_opt; the notebook contains no loop of its own; its only locally
defined function is `xgb_evaluate`, whose body also only calls those
libraries. -/
theorem claim_C6 :
    ((staticCalls notebookProgram).all
       (fun c => !(isCoreMLKind c.kind) || decide (c.lib ∈ thirdPartyMLLibs))) = true ∧
    hasLoop notebookProgram = false ∧
    localDefs notebookProgram = ["xgb_evaluate"] ∧
    ((staticCalls xgbEvaluateBody).all
       (fun c => decide (c.lib ∈ thirdPartyMLLibs))) = true :=
  ⟨by decide, by decide, by decide, by decide⟩

/-- C7: the grid search is exhaustive — `param_grid` yields exactly 64
candidate combinations (2 values for each of six hyperparameters, one
fixed objective), with `cv=3` exactly 192 fit jobs; the candidate set is
complete (every in-space assignment is enumerated); and for every
per-fold scorer the returned `best_params_` is an enumerated combination
whose mean cross-validated score is maximal. -/
theorem claim_C7 :
    (gridCandidates param_grid).length = 64 ∧
    (cvFitJobs param_grid 3).length = 192 ∧
    (∀ asn, inGrid param_grid asn = true → asn ∈ gridCandidates param_grid) ∧
    (∀ (foldScore : List (String × PVal) → ℕ → ℚ) (c : List (String × PVal)),
      inGrid param_grid c = true →
        ∃ best, GridSearchCV_fit param_grid (meanCvScore 3 foldScore) = some best ∧
          best ∈ gridCandidates param_grid ∧
          meanCvScore 3 foldScore c ≤ meanCvScore 3 foldScore best) := by
  refine ⟨by decide, by decide, gridCandidates_complete param_grid, ?_⟩
  intro foldScore c hc
  obtain ⟨best, hb⟩ :=
    argmaxBy_ne_nil (meanCvScore 3 foldScore) (gridCandidates param_grid) (by decide)
  exact ⟨best, hb, argmaxBy_mem _ _ best hb,
    argmaxBy_le _ _ best hb c (gridCandidates_complete param_grid c hc)⟩

/-- Witness for C7: the all-first-values candidate is enumerated, and
under the constant per-fold scorer the search returns a best candidate
scoring at least as well as it. -/
theorem claim_C7_witness :
    gridFirstCandidate ∈ gridCandidates param_grid ∧
    (∃ best, GridSearchCV_fit param_grid (meanCvScore 3 (fun _ _ => 1)) = some best ∧
      best ∈ gridCandidates param_grid ∧
      meanCvScore 3 (fun _ _ => 1) gridFirstCandidate ≤
        meanCvScore 3 (fun _ _ => 1) best) := by
  refine ⟨?_, ?_⟩
  · exact claim_C7.2.2.1 gridFirstCandidate
      (by simp [inGrid, param_grid, gridFirstCandidate])
  · exact claim_C7.2.2.2 (fun _ _ => 1) gridFirstCandidate
      (by simp [inGrid, param_grid, gridFirstCandidate])

/-- C8: the Bayesian-optimisation objective `xgb_evaluate` scores on the
held-out test set: for every input it returns exactly the accuracy of
the train-fit classifier's predictions on `(X_test, y_test)` — no
cross-validation enters; and the value genuinely depends on the test
labels (two test-label values can give different accuracies). -/
theorem claim_C8 :
    (∀ {Data Labels Model Pred : Type} (XGB : XgbParams → Model)
       (fitF : Model → Data → Labels → Model) (predictF : Model → Data → Pred)
       (accF : Labels → Pred → ℚ) (Xtr : Data) (ytr : Labels) (Xte : Data)
       (yte : Labels) (md g cs lr : ℚ),
       xgb_evaluate XGB fitF predictF accF Xtr ytr Xte yte md g cs lr =
         accF yte (predictF (fitF (XGB (xgbEvalParams md g cs lr)) Xtr ytr) Xte)) ∧
    (xgb_evaluate (fun _ : XgbParams => ()) (fun (m : Unit) (_ : Unit) (_ : Bool) => m)
        (fun (_ : Unit) (_ : Unit) => ())
        (fun (yt : Bool) (_ : Unit) => if yt then (1 : ℚ) else 0)
        () true () true 5 0 0 0 ≠
     xgb_evaluate (fun _ : XgbParams => ()) (fun (m : Unit) (_ : Unit) (_ : Bool) => m)
        (fun (_ : Unit) (_ : Unit) => ())
        (fun (yt : Bool) (_ : Unit) => if yt then (1 : ℚ) else 0)
        () true () false 5 0 0 0) := by
  constructor
  · intro Data Labels Model Pred XGB fitF predictF accF Xtr ytr Xte yte md g cs lr
    exact xgb_evaluate_unfold XGB fitF predictF accF Xtr ytr Xte yte md g cs lr
  · simp only [xgb_evaluate_unfold]
    norm_num

/-- Witness for C8: under trivial ML primitives with constant accuracy 1
the objective evaluates, via the theorem, to 1. -/
theorem claim_C8_witness :
    xgb_evaluate (fun _ : XgbParams => ()) (fun (m : Unit) (_ : Unit) (_ : Unit) => m)
      (fun (_ : Unit) (_ : Unit) => ()) (fun (_ : Unit) (_ : Unit) => (1 : ℚ))
      () () () () 5 0 0 0 = 1 :=
  (claim_C8.1 (fun _ => ()) (fun m _ _ => m) (fun _ _ => ())
    (fun _ _ => (1 : ℚ)) () () () () 5 0 0 0).trans rfl

/-- C9: both sections split the same wine data with `test_size=0.2` and
`random_state=42`: the two `train_test_split` call sites receive equal
argument tuples, so any deterministic split function — and
`train_test_split` with a fixed `random_state` is documented to be one —
produces identical partitions in the two sections and across runs. -/
theorem claim_C9 :
    ∀ raw : WineRaw,
      section1_split_args raw = section2_split_args raw ∧
      (∀ {Split : Type} (tts : TTSArgs → Split),
        tts (section1_split_args raw) = tts (section2_split_args raw)) ∧
      (section1_split_args raw).test_size = (1 : ℚ)/5 ∧
      (section1_split_args raw).random_state = 42 := by
  intro raw
  exact ⟨rfl, fun tts => rfl, rfl, rfl⟩

/-- Witness for C9: the two call sites agree on a concrete dataset. -/
theorem claim_C9_witness :
    section1_split_args { data := [[1]], target := [0], feature_names := ["alcohol"] } =
      section2_split_args { data := [[1]], target := [0], feature_names := ["alcohol"] } :=
  (claim_C9 { data := [[1]], target := [0], feature_names := ["alcohol"] }).1

/-- C10: `xgb_evaluate` truncates `max_depth` with `int()` (floor on the
positive bounds), so within a unit interval the built parameter
dictionary, hence the configured classifier and the returned accuracy,
are invariant: any two `max_depth` values in the bounds with the same
integer floor (and identical other arguments) give identical results;
and the final reported parameters apply the same truncation. -/
theorem claim_C10 :
    ∀ md1 md2 g cs lr : ℚ,
      3 ≤ md1 → md1 ≤ 10 → 3 ≤ md2 → md2 ≤ 10 →
      Int.floor md1 = Int.floor md2 →
      pyInt md1 = Int.floor md1 ∧
      xgbEvalParams md1 g cs lr = xgbEvalParams md2 g cs lr ∧
      (∀ {Data Labels Model Pred : Type} (XGB : XgbParams → Model)
         (fitF : Model → Data → Labels → Model) (predictF : Model → Data → Pred)
         (accF : Labels → Pred → ℚ) (Xtr : Data) (ytr : Labels) (Xte : Data)
         (yte : Labels),
         xgb_evaluate XGB fitF predictF accF Xtr ytr Xte yte md1 g cs lr =
           xgb_evaluate XGB fitF predictF accF Xtr ytr Xte yte md2 g cs lr) ∧
      truncate_max_depth
          { colsample_bytree := cs, gamma := g, learning_rate := lr, max_depth := md1 }
        = { colsample_bytree := cs, gamma := g, learning_rate := lr,
            max_depth := ((Int.floor md1 : ℤ) : ℚ) } := by
  intro md1 md2 g cs lr h1 h2 h3 h4 hf
  have h01 : (0 : ℚ) ≤ md1 := by linarith
  have h02 : (0 : ℚ) ≤ md2 := by linarith
  have hp1 : pyInt md1 = Int.floor md1 := by
    simp only [pyInt]; rw [if_pos h01]
  have hp2 : pyInt md2 = Int.floor md2 := by
    simp only [pyInt]; rw [if_pos h02]
  have hparams : xgbEvalParams md1 g cs lr = xgbEvalParams md2 g cs lr := by
    simp only [xgbEvalParams, hp1, hp2, hf]
  refine ⟨hp1, hparams, ?_, ?_⟩
  · intro Data Labels Model Pred XGB fitF predictF accF Xtr ytr Xte yte
    rw [xgb_evaluate_unfold, xgb_evaluate_unfold, hparams]
  · simp only [truncate_max_depth, hp1]

/-- Witness for C10: 3.5 and 3.75 share floor 3 inside the bounds, and
produce the same parameter dictionary. -/
theorem claim_C10_witness :
    xgbEvalParams ((7 : ℚ)/2) 0 ((1 : ℚ)/2) ((1 : ℚ)/10) =
      xgbEvalParams ((15 : ℚ)/4) 0 ((1 : ℚ)/2) ((1 : ℚ)/10) :=
  (claim_C10 ((7 : ℚ)/2) ((15 : ℚ)/4) 0 ((1 : ℚ)/2) ((1 : ℚ)/10)
    (by norm_num) (by norm_num) (by norm_num) (by norm_num)
    (by norm_num [Int.floor_eq_iff])).2.1
